import Mathlib

/-!
Verification of the Dataset Preparation & Model-Formula Pipeline of the
mite-population-dynamics dashboard (src/app.py), as a shallow embedding.

The app is a single script: it loads a CSV (normalizing column names,
src/app.py:23-27), filters rows by a user-selected set of years
(src/app.py:36-37), derives the candidate regression features from the
columns of the dataset minus the reserved set (src/app.py:56 and 77), picks a
default selection (src/app.py:78-80), builds an OLS formula string
(src/app.py:83), fits the model and summarizes significant predictors
(src/app.py:90-92), and wraps the whole flow in a try/except that surfaces
any error as a user-visible message (src/app.py:31 and 99-100).

External library calls (pandas CSV parsing and the statsmodels OLS fit) are
modelled as inputs: the parse result is an `Except String DataFrame` and the
fit is a function argument producing an `Except String FitResult`.  Cell
values are rationals; column names are strings.
-/

namespace MiteApp

/-- Python str.strip on the character list of a string: drop whitespace from
the front, then from the back (this is the pandas `.str.strip()` applied to
column names at src/app.py:26). -/
def pyStripChars (l : List Char) : List Char :=
  ((l.dropWhile Char.isWhitespace).reverse.dropWhile Char.isWhitespace).reverse

/-- Python str.strip lifted to strings. -/
def pyStrip (s : String) : String :=
  String.mk (pyStripChars s.data)

/-- Boolean check that a string has no leading and no trailing whitespace
character (an empty string trivially has none). -/
def noEdgeWhitespace (s : String) : Bool :=
  (match s.data.head? with
   | some c => !c.isWhitespace
   | none => true) &&
  (match s.data.getLast? with
   | some c => !c.isWhitespace
   | none => true)

/-- A loaded table: ordered column names and rows of rational cell values
(the pandas DataFrame as far as this pipeline inspects it). -/
structure DataFrame where
  cols : List String
  rows : List (List ℚ)
deriving DecidableEq

/-- The column-name cleaning step of load_data (src/app.py:24-27): the CSV
has already been parsed (parsing is external, see run_flow); every column
name is stripped of leading/trailing whitespace and the cell values are kept
as they are. -/
def load_data (df : DataFrame) : DataFrame :=
  DataFrame.mk (df.cols.map pyStrip) df.rows

/-- Value of the Year cell of a row: the entry at the index of the column
named Year (the Year column access behind src/app.py:36-37). -/
def yearOf (df : DataFrame) (r : List ℚ) : ℚ :=
  r.getD (df.cols.indexOf "Year") 0

/-- Accumulator pass behind uniqueVals: keep the first occurrence of each
value, in order of first appearance. -/
def uniqueAux : List ℚ → List ℚ → List ℚ
  | [], _ => []
  | a :: l, seen =>
    if a ∈ seen then uniqueAux l seen else a :: uniqueAux l (a :: seen)

/-- Distinct values of a list in order of first appearance: the pandas
`Series.unique()` used for the year multiselect options and default at
src/app.py:36. -/
def uniqueVals (l : List ℚ) : List ℚ :=
  uniqueAux l []

/-- The Year column of a dataset as a list of values. -/
def year_col (df : DataFrame) : List ℚ :=
  df.rows.map (yearOf df)

/-- The Year Filter (src/app.py:37): filtered_df keeps, in order, exactly the rows whose Year value is a member of the
selected set; the column list is unchanged. -/
def filtered_df (df : DataFrame) (years : List ℚ) : DataFrame :=
  DataFrame.mk df.cols (df.rows.filter (fun r => decide (yearOf df r ∈ years)))

/-- The candidate list of the Feature Selector (src/app.py:77, identical
comprehension at src/app.py:56): all column names not in the reserved set,
in column order. -/
def available_features (cols : List String) : List String :=
  cols.filter (fun col => decide (col ∉ ["Year", "SMW", "Mite"]))

/-- The default selection of the feature multiselect (src/app.py:80):
`available_features[:3] if len(available_features) >= 3 else available_features`. -/
def default_selected (af : List String) : List String :=
  if 3 ≤ af.length then af.take 3 else af

/-- The Formula Builder (src/app.py:83): the target name, a tilde separator,
then the features joined by plus signs with single spaces around each
separator — a bare join of the feature names. -/
def formula (features : List String) : String :=
  "Mite ~ " ++ String.intercalate " + " features

/-- Characters the spec regards as safe for bare identifier syntax:
letters, digits, underscore. -/
def specSafeChar (c : Char) : Bool :=
  c.isAlphanum || c = '_'

/-- Whether the spec requires a term to be quoted: it contains some
character outside the safe set. -/
def specNeedsQuote (s : String) : Bool :=
  !(s.data.all specSafeChar)

/-- A term as the Formula Builder of the spec would emit it: bare when every
character is safe, otherwise wrapped in an explicit quoting construct (the
patsy-style Q-wrapper). -/
def specQuoteTerm (s : String) : String :=
  if specNeedsQuote s then "Q(\"" ++ s ++ "\")" else s

/-- Modelled from the spec: the Formula Builder as §4.4 describes it, which
quotes every term whose name contains a character outside letters, digits
and underscore.  This definition follows the words of the spec, to be compared
with the formula the code actually builds. -/
def formula_spec (features : List String) : String :=
  specQuoteTerm "Mite" ++ " ~ " ++ String.intercalate " + " (features.map specQuoteTerm)

/-- The exposed p-values of a fitted model: a mapping from term name (the
Intercept plus one entry per predictor) to p-value, in model order
(the `model.pvalues` Series of src/app.py:90). -/
abbrev FitResult := List (String × ℚ)

/-- The conditional removal at src/app.py:92: when the name Intercept occurs
in the list, the Python list.remove drops its first occurrence. -/
def dropIntercept (sig : List String) : List String :=
  if "Intercept" ∈ sig then sig.erase "Intercept" else sig

/-- The Significance Summarizer (src/app.py:91-92): the pandas expression
`p_values[p_values < 0.05].index.tolist()` keeps, in order, the names whose
p-value is strictly below 0.05; then the entry named Intercept is removed
when present. -/
def significant_vars (pvalues : FitResult) : List String :=
  dropIntercept ((pvalues.filter (fun p => decide (p.2 < 5 / 100))).map Prod.fst)

/-- What the Regression tab renders below the feature multiselect. -/
inductive View where
  /-- The prompt shown before any file is uploaded (src/app.py:103). -/
  | info : String → View
  /-- The st.error box of the except branch (src/app.py:100). -/
  | errorBox : String → View
  /-- The rendered analysis: the filtered view and, when a model was fit,
  the list of significant predictor names (src/app.py:94-97). -/
  | dashboard : DataFrame → Option (List String) → View
deriving DecidableEq

/-- The guarded regression block (src/app.py:82-92): `if features:` — when
the selected feature set is empty nothing is built or fit (`none`);
otherwise the formula is built, the external fit is invoked on the filtered
data, and its p-values are summarized. -/
def regression_section (features : List String) (fdf : DataFrame)
    (fit : String → DataFrame → Except String FitResult) :
    Option (Except String (List String)) :=
  if features.isEmpty then none
  else some ((fit (formula features) fdf).map significant_vars)

/-- The analysis tabs over a loaded dataset (src/app.py:36-97): the
Year column access raises when the column is missing, the year filter
derives the filtered view, and the regression section runs on it.  The
first component of the result is what the name df refers to once the tabs
have rendered — no stage rebinds or mutates it. -/
def analysis_tabs (df : DataFrame) (years : List ℚ) (features : List String)
    (fit : String → DataFrame → Except String FitResult) :
    DataFrame × Except String View :=
  if "Year" ∈ df.cols then
    match regression_section features (filtered_df df years) fit with
    | none => (df, Except.ok (View.dashboard (filtered_df df years) none))
    | some (Except.error e) => (df, Except.error e)
    | some (Except.ok sig) =>
      (df, Except.ok (View.dashboard (filtered_df df years) (some sig)))
  else (df, Except.error "KeyError: Year")

/-- The body of the try block (src/app.py:31-97): the external CSV parse
result (ok table or raised parse error) is normalized by load_data and the
tabs are rendered. -/
def run_flow (raw : Except String DataFrame) (years : List ℚ)
    (features : List String)
    (fit : String → DataFrame → Except String FitResult) :
    Except String View :=
  match raw with
  | Except.error e => Except.error e
  | Except.ok df0 => (analysis_tabs (load_data df0) years features fit).2

/-- The whole interactive flow (src/app.py:30-103): no upload shows the
info prompt; an upload runs the pipeline inside try/except, and any error
raised anywhere in it is caught and surfaced as the st.error message
`Error processing data: ...` rather than terminating the app. -/
def app_main (uploaded : Option (Except String DataFrame)) (years : List ℚ)
    (features : List String)
    (fit : String → DataFrame → Except String FitResult) : View :=
  match uploaded with
  | none => View.info "Please upload the mite weather CSV file in the sidebar to begin analysis."
  | some raw =>
    match run_flow raw years features fit with
    | Except.ok v => v
    | Except.error e => View.errorBox ("Error processing data: " ++ e)

/-- The feature options offered in the Regression tab (src/app.py:77): both
df and filtered_df are in scope there, and the comprehension reads
`df.columns` — the columns of the full dataset, not of the filtered view. -/
def tab4_available_features (df : DataFrame) (fdf : DataFrame) : List String :=
  available_features df.cols

/-- The default feature selection of the Regression tab (src/app.py:78-80),
computed from the options — hence again from df, not from the filtered
view. -/
def tab4_default_features (df : DataFrame) (fdf : DataFrame) : List String :=
  default_selected (tab4_available_features df fdf)

/-! Helper lemmas shared by the claim theorems. -/

/-- Membership in the accumulator pass: an element appears in the result
exactly when it appears in the remaining input and has not been seen. -/
theorem mem_uniqueAux (x : ℚ) :
    ∀ (l seen : List ℚ), x ∈ uniqueAux l seen ↔ x ∈ l ∧ x ∉ seen := by
  intro l
  induction l with
  | nil => intro seen; simp [uniqueAux]
  | cons a t ih =>
    intro seen
    by_cases h : a ∈ seen
    · rw [uniqueAux, if_pos h, ih]
      constructor
      · rintro ⟨hx, hs⟩
        exact ⟨List.mem_cons_of_mem a hx, hs⟩
      · rintro ⟨hx, hs⟩
        rcases List.mem_cons.mp hx with he | ht
        · exact absurd (he ▸ h) hs
        · exact ⟨ht, hs⟩
    · rw [uniqueAux, if_neg h]
      rw [List.mem_cons, ih, List.mem_cons, List.mem_cons]
      by_cases hxa : x = a
      · subst hxa; simp [h]
      · simp [hxa]
  -- membership characterization of the seen-accumulator recursion

/-- Membership in uniqueVals: exactly the members of the input list. -/
theorem mem_uniqueVals (x : ℚ) (l : List ℚ) : x ∈ uniqueVals l ↔ x ∈ l := by
  rw [uniqueVals, mem_uniqueAux]
  simp

/-- The first element surviving dropWhile falsifies the predicate. -/
theorem head?_dropWhile_false {α : Type} (p : α → Bool) :
    ∀ (l : List α) {c : α}, (l.dropWhile p).head? = some c → p c = false := by
  intro l
  induction l with
  | nil => intro c h; simp [List.dropWhile] at h
  | cons a t ih =>
    intro c h
    rw [List.dropWhile_cons] at h
    by_cases hpa : p a = true
    · rw [if_pos hpa] at h
      exact ih h
    · rw [if_neg hpa] at h
      simp at h
      subst h
      simpa using hpa

/-- dropWhile only removes a leading segment: when the result is non-empty
its last element is the last element of the input. -/
theorem getLast?_dropWhile {α : Type} (p : α → Bool) :
    ∀ (l : List α), l.dropWhile p ≠ [] → (l.dropWhile p).getLast? = l.getLast? := by
  intro l
  induction l with
  | nil => intro h; simp [List.dropWhile] at h
  | cons a t ih =>
    intro h
    rw [List.dropWhile_cons]
    by_cases hpa : p a = true
    · rw [List.dropWhile_cons, if_pos hpa] at h
      rw [if_pos hpa, ih h]
      have ht : t ≠ [] := by
        intro he
        subst he
        simp [List.dropWhile] at h
      obtain ⟨b, t, rfl⟩ := List.exists_cons_of_ne_nil ht
      exact (List.getLast?_cons_cons).symm
    · rw [if_neg hpa]

/-- The stripped form of any string has no leading and no trailing
whitespace character. -/
theorem noEdgeWhitespace_pyStrip (s : String) :
    noEdgeWhitespace (pyStrip s) = true := by
  have hdata : (pyStrip s).data = pyStripChars s.data := rfl
  unfold noEdgeWhitespace
  rw [hdata]
  unfold pyStripChars
  rw [Bool.and_eq_true]
  constructor
  · rw [List.head?_reverse]
    rcases hl : ((s.data.dropWhile Char.isWhitespace).reverse.dropWhile
        Char.isWhitespace).getLast? with _ | c
    · rfl
    · have hne : (s.data.dropWhile Char.isWhitespace).reverse.dropWhile
          Char.isWhitespace ≠ [] := by
        intro he
        rw [he] at hl
        simp at hl
      rw [getLast?_dropWhile _ _ hne, List.getLast?_reverse] at hl
      have := head?_dropWhile_false Char.isWhitespace s.data hl
      simp [this]
  · rw [List.getLast?_reverse]
    rcases hl : ((s.data.dropWhile Char.isWhitespace).reverse.dropWhile
        Char.isWhitespace).head? with _ | c
    · rfl
    · have := head?_dropWhile_false Char.isWhitespace _ hl
      simp [this]

/-- Removing the Intercept entry from a duplicate-free name list is the same
as filtering it out. -/
theorem dropIntercept_eq_filter (sig : List String) (h : sig.Nodup) :
    dropIntercept sig = sig.filter (fun x => x != "Intercept") := by
  unfold dropIntercept
  by_cases hm : "Intercept" ∈ sig
  · rw [if_pos hm, List.Nodup.erase_eq_filter h]
  · rw [if_neg hm, eq_comm, List.filter_eq_self]
    intro a ha
    have hne : a ≠ "Intercept" := fun he => hm (he ▸ ha)
    simp [hne]

/-- Quoting is the identity on a list of safe names. -/
theorem map_specQuoteTerm_eq_self :
    ∀ (features : List String), (∀ f ∈ features, specNeedsQuote f = false) →
      features.map specQuoteTerm = features := by
  intro features
  induction features with
  | nil => intro _; rfl
  | cons a t ih =>
    intro h
    rw [List.map_cons, ih (fun f hf => h f (List.mem_cons_of_mem a hf))]
    have ha : specNeedsQuote a = false := h a (List.mem_cons_self a t)
    unfold specQuoteTerm
    rw [ha]
    rfl

/-! Claim theorems. -/

/-- Claim C1, counterexample: the code never wraps a term in a quoting
construct.  For the feature name Wind Speed — which contains a character
outside letters, digits and underscore, so the claim requires quoting — the
built formula is exactly the bare join and differs from the quoted form the
claim describes. -/
theorem C1_counterexample :
    specNeedsQuote "Wind Speed" = true ∧
    formula ["Wind Speed"] = "Mite ~ Wind Speed" ∧
    formula ["Wind Speed"] ≠ formula_spec ["Wind Speed"] :=
  ⟨by decide, by decide, by decide⟩

/-- Claim C1, amended: for the fixed target Mite and every ordered feature
set, the Formula Builder emits exactly the bare join
Mite tilde f1 plus ... plus fn, with every term emitted bare regardless of
its characters; the output coincides with the quoting form described by the
spec exactly on feature sets whose names contain only letters, digits and
underscores. -/
theorem C1_bare_join (features : List String) :
    formula features = "Mite ~ " ++ String.intercalate " + " features ∧
    ((∀ f ∈ features, specNeedsQuote f = false) →
      formula features = formula_spec features) := by
  refine ⟨rfl, fun h => ?_⟩
  unfold formula formula_spec
  rw [map_specQuoteTerm_eq_self features h]
  have hM : specQuoteTerm "Mite" ++ " ~ " = "Mite ~ " := by decide
  rw [hM]

/-- Claim C1, witness: on the safe names Tmax and RH the code formula and
the quoted form of the spec agree, and both read Mite ~ Tmax + RH. -/
theorem C1_witness :
    formula ["Tmax", "RH"] = formula_spec ["Tmax", "RH"] ∧
    formula ["Tmax", "RH"] = "Mite ~ Tmax + RH" :=
  ⟨(C1_bare_join ["Tmax", "RH"]).2 (by decide), by decide⟩

/-- Claim C2: for every fitted model whose term names are distinct (a
mapping from term name to p-value), the Significance Summarizer returns
exactly the ordered names whose p-value is strictly below 0.05, with any
entry named Intercept excluded regardless of its p-value. -/
theorem C2_significance_summary (pvalues : FitResult)
    (h : (pvalues.map Prod.fst).Nodup) :
    significant_vars pvalues =
      (pvalues.filter
        (fun p => decide (p.2 < 5 / 100) && (p.1 != "Intercept"))).map Prod.fst := by
  unfold significant_vars
  have hnd : ((pvalues.filter (fun p => decide (p.2 < 5 / 100))).map Prod.fst).Nodup :=
    List.Nodup.sublist (List.Sublist.map Prod.fst (List.filter_sublist pvalues)) h
  rw [dropIntercept_eq_filter _ hnd, List.filter_map, List.filter_filter]
  congr 1
  apply List.filter_congr
  intro p _
  exact Bool.and_comm _ _

/-- Claim C2, witness: on the p-values of the spec example — Intercept 0.01,
Tmax 0.03, RH 0.20 — the output is exactly the singleton Tmax: Intercept is
excluded despite passing the threshold and RH fails it. -/
theorem C2_witness :
    significant_vars [("Intercept", 1 / 100), ("Tmax", 3 / 100), ("RH", 20 / 100)] =
      ["Tmax"] :=
  (C2_significance_summary
    [("Intercept", 1 / 100), ("Tmax", 3 / 100), ("RH", 20 / 100)]
    (by decide)).trans (by norm_num [List.filter_cons]; simp)

/-- Claim C3: the Year Filter keeps exactly the rows whose Year value is in
the selected set, in original order (a sublist of the original rows, with
the columns untouched); selecting the full distinct-year set returns the
dataset unchanged, and selecting the empty set returns zero rows. -/
theorem C3_year_filter (df : DataFrame) (S : List ℚ) :
    (∀ r, r ∈ (filtered_df df S).rows ↔ r ∈ df.rows ∧ yearOf df r ∈ S) ∧
    (filtered_df df S).rows.Sublist df.rows ∧
    (filtered_df df S).cols = df.cols ∧
    filtered_df df (uniqueVals (year_col df)) = df ∧
    filtered_df df [] = DataFrame.mk df.cols [] := by
  refine ⟨?_, List.filter_sublist _, rfl, ?_, ?_⟩
  · intro r
    simp [filtered_df, List.mem_filter]
  · obtain ⟨cols, rows⟩ := df
    unfold filtered_df
    congr 1
    rw [List.filter_eq_self]
    intro r hr
    rw [decide_eq_true_eq, mem_uniqueVals]
    exact List.mem_map_of_mem _ hr
  · unfold filtered_df
    congr 1
    simp

/-- Claim C3, witness: on a concrete two-year dataset, filtering on the
single year 2022 keeps exactly the first row, filtering on the full
distinct-year set keeps everything, and the empty selection keeps nothing. -/
theorem C3_witness :
    (filtered_df (DataFrame.mk ["Year", "Mite"] [[2022, 5], [2023, 7]]) [2022]).rows =
      [[2022, 5]] ∧
    filtered_df (DataFrame.mk ["Year", "Mite"] [[2022, 5], [2023, 7]])
        (uniqueVals (year_col (DataFrame.mk ["Year", "Mite"] [[2022, 5], [2023, 7]]))) =
      DataFrame.mk ["Year", "Mite"] [[2022, 5], [2023, 7]] ∧
    filtered_df (DataFrame.mk ["Year", "Mite"] [[2022, 5], [2023, 7]]) [] =
      DataFrame.mk ["Year", "Mite"] [] :=
  ⟨by norm_num [filtered_df, yearOf, List.filter],
   (C3_year_filter (DataFrame.mk ["Year", "Mite"] [[2022, 5], [2023, 7]]) []).2.2.2.1,
   (C3_year_filter (DataFrame.mk ["Year", "Mite"] [[2022, 5], [2023, 7]]) []).2.2.2.2⟩

/-- Claim C4: the candidate feature list is exactly the column names outside
the reserved set Year, SMW, Mite, in column order; on the example columns
Year, SMW, Mite, Tmax, RH the candidates are Tmax, RH. -/
theorem C4_candidate_features :
    (∀ (cols : List String) (c : String),
      c ∈ available_features cols ↔
        c ∈ cols ∧ c ≠ "Year" ∧ c ≠ "SMW" ∧ c ≠ "Mite") ∧
    (∀ cols : List String, (available_features cols).Sublist cols) ∧
    available_features ["Year", "SMW", "Mite", "Tmax", "RH"] = ["Tmax", "RH"] := by
  refine ⟨?_, fun _ => List.filter_sublist _, by decide⟩
  intro cols c
  simp [available_features, List.mem_filter]

/-- Claim C5: with no user override, the default feature selection is the
first three candidates when at least three exist, and the whole candidate
list otherwise; in both cases it is the three-element initial segment of
the candidate list in column order. -/
theorem C5_default_selection (af : List String) :
    (3 ≤ af.length → default_selected af = af.take 3) ∧
    (af.length < 3 → default_selected af = af) ∧
    default_selected af = af.take 3 := by
  unfold default_selected
  by_cases h : 3 ≤ af.length
  · rw [if_pos h]
    exact ⟨fun _ => rfl, fun hl => absurd h (not_le.mpr hl), rfl⟩
  · rw [if_neg h]
    have hle : af.length ≤ 3 := le_of_lt (lt_of_not_ge h)
    exact ⟨fun hc => absurd hc h, fun _ => rfl, (List.take_of_length_le hle).symm⟩

/-- Claim C5, witness: four candidates give the first three as default, and
two candidates give both. -/
theorem C5_witness :
    default_selected ["Tmax", "Tmin", "VP", "RH"] = ["Tmax", "Tmin", "VP"] ∧
    default_selected ["Tmax", "RH"] = ["Tmax", "RH"] :=
  ⟨((C5_default_selection ["Tmax", "Tmin", "VP", "RH"]).1 (by decide)).trans (by decide),
   (C5_default_selection ["Tmax", "RH"]).2.1 (by decide)⟩

/-- Claim C6: the Column Normalizer applied at ingestion leaves every cell
value unchanged, replaces every column name by its trimmed original, and
leaves no column name with leading or trailing whitespace. -/
theorem C6_column_normalizer (df : DataFrame) :
    (load_data df).rows = df.rows ∧
    (load_data df).cols = df.cols.map pyStrip ∧
    ∀ c ∈ (load_data df).cols, noEdgeWhitespace c = true := by
  refine ⟨rfl, rfl, ?_⟩
  intro c hc
  rcases List.mem_map.mp hc with ⟨c0, _, rfl⟩
  exact noEdgeWhitespace_pyStrip c0

/-- Claim C6, witness: a dataset with padded headers normalizes to the
trimmed names with its rows untouched, and the trimmed name Year carries no
edge whitespace. -/
theorem C6_witness :
    load_data (DataFrame.mk [" Year ", "RH  "] [[2022, 61]]) =
      DataFrame.mk ["Year", "RH"] [[2022, 61]] ∧
    noEdgeWhitespace "Year" = true :=
  ⟨by decide,
   (C6_column_normalizer (DataFrame.mk [" Year ", "RH  "] [[2022, 61]])).2.2
     "Year" (by decide)⟩

/-- Claim C7: with an empty selected feature set the regression block is a
no-op — no formula is built and the external fit is never invoked — and the
block runs the fit on the built formula exactly when the selection is
non-empty. -/
theorem C7_empty_selection_gate (fdf : DataFrame)
    (fit : String → DataFrame → Except String FitResult) :
    regression_section [] fdf fit = none ∧
    (∀ features, regression_section features fdf fit = none ↔ features = []) ∧
    (∀ features, features ≠ [] →
      regression_section features fdf fit =
        some ((fit (formula features) fdf).map significant_vars)) := by
  refine ⟨rfl, ?_, ?_⟩
  · intro features
    cases features <;> simp [regression_section]
  · intro features hf
    cases features with
    | nil => exact absurd rfl hf
    | cons a t => simp [regression_section]

/-- Claim C7, witness: on the one-feature selection Tmax the block does
invoke the fit on the formula Mite ~ Tmax, and on the empty selection it
yields the neutral no-op. -/
theorem C7_witness :
    regression_section ["Tmax"] (DataFrame.mk [] []) (fun f _ => Except.error f) =
      some (Except.error "Mite ~ Tmax") ∧
    regression_section [] (DataFrame.mk [] []) (fun f _ => Except.error f) = none := by
  constructor
  · rw [(C7_empty_selection_gate (DataFrame.mk [] [])
      (fun f _ => Except.error f)).2.2 ["Tmax"] (by decide)]
    rfl
  · exact (C7_empty_selection_gate (DataFrame.mk [] [])
      (fun f _ => Except.error f)).1

/-- Claim C8: every error raised inside the uploaded-file flow — parse
error, missing Year column, or fit error — is caught at the boundary and
surfaced as the user-visible message prefixed Error processing data, every
successful run renders its view, and without an upload the info prompt is
shown; the app function is total, so no error is fatal. -/
theorem C8_error_boundary :
    (∀ (raw : Except String DataFrame) (years : List ℚ) (features : List String)
      (fit : String → DataFrame → Except String FitResult) (e : String),
      run_flow raw years features fit = Except.error e →
        app_main (some raw) years features fit =
          View.errorBox ("Error processing data: " ++ e)) ∧
    (∀ raw years features fit v,
      run_flow raw years features fit = Except.ok v →
        app_main (some raw) years features fit = v) ∧
    (∀ years features fit,
      app_main none years features fit =
        View.info "Please upload the mite weather CSV file in the sidebar to begin analysis.") := by
  refine ⟨?_, ?_, fun _ _ _ => rfl⟩
  · intro raw years features fit e h
    simp only [app_main]
    rw [h]
  · intro raw years features fit v h
    simp only [app_main]
    rw [h]

/-- Claim C8, witness: a concrete parse failure is surfaced as the prefixed
error box instead of terminating the flow. -/
theorem C8_witness :
    app_main (some (Except.error "ParserError: no columns to parse from file"))
      [] [] (fun _ _ => Except.ok []) =
      View.errorBox "Error processing data: ParserError: no columns to parse from file" :=
  C8_error_boundary.1 (Except.error "ParserError: no columns to parse from file")
    [] [] (fun _ _ => Except.ok []) "ParserError: no columns to parse from file" rfl

/-- Claim C9: the Year Filter derives a view — same columns, rows a
selection of the original rows in order — and after the whole set of
analysis tabs has run, the loaded dataset is exactly what it was. -/
theorem C9_dataset_immutable (df : DataFrame) (years : List ℚ)
    (features : List String)
    (fit : String → DataFrame → Except String FitResult) :
    (analysis_tabs df years features fit).1 = df ∧
    (filtered_df df years).cols = df.cols ∧
    (filtered_df df years).rows.Sublist df.rows := by
  refine ⟨?_, rfl, List.filter_sublist _⟩
  unfold analysis_tabs
  split
  · split <;> rfl
  · rfl

/-- Claim C10: the candidate feature list and the default selection of the
Regression tab are computed from the columns of the full dataset, not from
the year-filtered view, so any two year selections over the same dataset
yield identical feature options and identical defaults. -/
theorem C10_filter_noninterference (df : DataFrame) (ys1 ys2 : List ℚ) :
    tab4_available_features df (filtered_df df ys1) =
      tab4_available_features df (filtered_df df ys2) ∧
    tab4_default_features df (filtered_df df ys1) =
      tab4_default_features df (filtered_df df ys2) ∧
    (∀ fdf, tab4_available_features df fdf = available_features df.cols) :=
  ⟨rfl, rfl, fun _ => rfl⟩

end MiteApp
